import Mathlib

/-!
Verification of the raster abstraction in `src/geo/geodriver.py` (class
`GeoDriver`).  The Python module is embedded shallowly: coordinates are exact
rationals (the Python floats carry no claim-relevant rounding here), numpy
arrays are lists of lists, and Python exceptions are an explicit error type
threaded through `Except`.  External collaborators (gdal file opening, the
pyproj corner transformation, the CRS pipeline producing the short projection
string) enter as explicit inputs, exactly at the interface the source calls
them.
-/

namespace Geo

/-- Kinds of Python exceptions that the embedded code paths can surface.
`valueError` is numpy's error for a reduction (`.min()` / `.max()`) over an
empty selection, `indexError` is numpy's out-of-range indexing error,
`attributeError` is the error from touching an attribute of `None`.
`openError` and `boundsError` are the dedicated error classes named by the
specification; the source under `src/` never defines or raises either, the
constructors exist so that statements about them can be written down. -/
inductive PyError where
  | valueError
  | indexError
  | attributeError
  | openError
  | boundsError
  deriving DecidableEq

/-- The six entries of an affine geotransform, in gdal order
`(x0, dx, rx, y0, ry, dy) = (gt[0], gt[1], gt[2], gt[3], gt[4], gt[5])`. -/
structure GeoTransform where
  x0 : ℚ
  dx : ℚ
  rx : ℚ
  y0 : ℚ
  ry : ℚ
  dy : ℚ
  deriving DecidableEq

/-- The slice of a `gdal.Dataset` that `GeoDriver.__init__` reads: raster
dimensions, geotransform, the short projection family string (the source
derives it from the WKT via osr/proj4/rasterio, a pipeline external to this
repository, collapsed here into one field), and the band data returned by
`ReadAsArray`. -/
structure Dataset where
  rasterXSize : Nat
  rasterYSize : Nat
  projstr : String
  gt : GeoTransform
  data : List (List ℚ)
  deriving DecidableEq

/-- State of a `GeoDriver` object (geodriver.py, lines 23-38 plus the fields
assigned by `init_proj`).  `ds = none` models a closed handle (`self.ds =
None`). -/
structure Driver where
  ds : Option (List (List ℚ))
  nx : Nat
  ny : Nat
  gt : GeoTransform
  projstr : String
  projwrf : String
  reproj : Bool
  resample_indxs : Option (Nat × Nat × Nat × Nat)
  deriving DecidableEq

/-- Lookup in a Python dict literal built from `entries` in order: a later
binding of the same key overrides an earlier one, and `.get(key, None)` yields
`none` on a miss.  This models the duplicate-key semantics of the literal in
`init_proj` (geodriver.py, lines 66-72). -/
def pyDictGet (entries : List (String × String)) (key : String) : Option String :=
  entries.foldl (fun acc kv => if kv.1 = key then some kv.2 else acc) none

/-- The entries of the dict literal in `init_proj` (geodriver.py, lines
66-72), in source order.  The key `stere` appears twice. -/
def projwrfEntries : List (String × String) :=
  [("lcc", "lambert"), ("stere", "polar"), ("merc", "mercator"),
   ("latlong", "regular_ll"), ("aea", "albers_nad83"), ("stere", "polar_wgs84")]

/-- The projection resolution performed by `init_proj` (geodriver.py, lines
64-80): look `projstr` up in the dict literal; on a hit the tag is the mapped
value and `reproj` is `False`, on a miss the tag falls back to `lambert` and
`reproj` is `True`. -/
def init_proj_resolve (projstr : String) : String × Bool :=
  match pyDictGet projwrfEntries projstr with
  | some tag => (tag, false)
  | none => ("lambert", true)

/-- `GeoDriver.__init__` (geodriver.py, lines 23-38) on a dataset: record
sizes, run `init_proj`, set `resample_indxs` to `None`. -/
def construct (d : Dataset) : Driver :=
  { ds := some d.data
    nx := d.rasterXSize
    ny := d.rasterYSize
    gt := d.gt
    projstr := d.projstr
    projwrf := (init_proj_resolve d.projstr).1
    reproj := (init_proj_resolve d.projstr).2
    resample_indxs := none }

/-- `GeoDriver.from_file` (geodriver.py, lines 223-238).  The result of the
external `gdal.Open(path)` call is the input: `some d` when the path opened as
a raster, `none` when it did not.  The source then returns the constructed
driver or the value `None`; no exception is raised on failure. -/
def from_file (openResult : Option Dataset) : Except PyError (Option Driver) :=
  match openResult with
  | some d => .ok (some (construct d))
  | none => .ok none

/-- `GeoDriver.close` (geodriver.py, lines 40-44): release the handle by
assigning `self.ds = None`.  No other field is touched. -/
def close (s : Driver) : Driver := { s with ds := none }

/-- Python slice `xs[lo:hi]` for nonnegative bounds: the elements with index
`lo <= k < hi`. -/
def pyslice (lo hi : Nat) (xs : List α) : List α := (xs.take hi).drop lo

/-- Numpy 2-d slice `a[ilo:ihi, jlo:jhi]`. -/
def slice2 (ilo ihi jlo jhi : Nat) (a : List (List α)) : List (List α) :=
  (pyslice ilo ihi a).map (pyslice jlo jhi)

/-- The call `np.arange(x0, x0 + d * n, d)` as issued by `get_coord`
(geodriver.py, lines 96-97): for a nonzero step and exact arithmetic it yields
exactly `n` values, `x0 + k * d` for `k < n`. -/
def arange (x0 d : ℚ) (n : Nat) : List ℚ :=
  (List.range n).map fun k : Nat => x0 + (k : ℚ) * d

/-- First component of `np.meshgrid(xx, yy)` (geodriver.py, line 98): `ny`
rows, each equal to `xx`. -/
def meshX (s : Driver) : List (List ℚ) :=
  (List.range s.ny).map fun _ => arange s.gt.x0 s.gt.dx s.nx

/-- Second component of `np.meshgrid(xx, yy)` (geodriver.py, line 98): row
`r` is the constant row `yy[r]` repeated `nx` times. -/
def meshY (s : Driver) : List (List ℚ) :=
  (arange s.gt.y0 s.gt.dy s.ny).map fun y => List.replicate s.nx y

/-- `GeoDriver.get_coord` (geodriver.py, lines 91-103): rebuild the mesh from
the current `gt`, `nx`, `ny`, then, when a resample window is cached, slice
both grids with it, first component of the window on the row axis. -/
def get_coord (s : Driver) : List (List ℚ) × List (List ℚ) :=
  match s.resample_indxs with
  | some (i_min, i_max, j_min, j_max) =>
      (slice2 i_min i_max j_min j_max (meshX s),
       slice2 i_min i_max j_min j_max (meshY s))
  | none => (meshX s, meshY s)

/-- Numpy `.min()` of an index vector: the least element, or the empty
reduction `ValueError` (geodriver.py, lines 122, 126, 130, 134). -/
def npMin : List Nat → Except PyError Nat
  | [] => .error .valueError
  | x :: t => .ok (t.foldl min x)

/-- Numpy `.max()` of an index vector: the greatest element, or the empty
reduction `ValueError` (geodriver.py, lines 123, 125, 131, 133). -/
def npMax : List Nat → Except PyError Nat
  | [] => .error .valueError
  | x :: t => .ok (t.foldl max x)

/-- The index set `np.where(p vals)[0]`: the indices of `vals` whose entry
satisfies `p`, in increasing order (geodriver.py, lines 119-120, 127-128). -/
def whereIdx (p : ℚ → Bool) (vals : List ℚ) : List Nat :=
  (List.range vals.length).filter fun i => p (vals.getD i 0)

/-- The index search of `resample_bbox` for one axis (geodriver.py, lines
119-134; the row search repeats the column search verbatim with `Y[:,0]`,
`y_min`, `y_max` and `dy`): collect the indices with `lo <= v` and those with
`v <= hi`, then combine their extrema according to the sign of the spacing
`d`, in the source's evaluation order. -/
def searchWindow (d lo hi : ℚ) (vals : List ℚ) : Except PyError (Nat × Nat) :=
  let mins := whereIdx (fun v => decide (lo ≤ v)) vals
  let maxs := whereIdx (fun v => decide (v ≤ hi)) vals
  if 0 < d then
    match npMin mins with
    | .error e => .error e
    | .ok lo' =>
      match npMax maxs with
      | .error e => .error e
      | .ok hi' => .ok (lo', hi')
  else
    match npMax mins with
    | .error e => .error e
    | .ok hi' =>
      match npMin maxs with
      | .error e => .error e
      | .ok lo' => .ok (lo', hi')

/-- `GeoDriver.resample_bbox` (geodriver.py, lines 105-146) from the corners
of the bounding box already transformed into the raster's native projection
(the two `pyproj.transform` calls on lines 112-115 are external to this
repository; the claims quantify over the transformed corners `(x_min, y_min)`,
`(x_max, y_max)`).  Faithful to the source: the window found by searching
`X[0]` is applied as the first (row) slice index and the window found by
searching `Y[:,0]` as the second (column) slice index; slices are half-open;
`self.ds.ReadAsArray()` raises on a closed handle; reading `X_r[0,0]` or
`Y_r[0,0]` of an empty crop raises `IndexError`.  On success the returned
driver carries the updated `gt`, `ny`, `nx` and the cached window; the source
mutates `self` in the same fields. -/
def resample_bbox (s : Driver) (x_min y_min x_max y_max : ℚ) :
    Except PyError (List (List ℚ) × Driver) :=
  let X := (get_coord s).1
  let Y := (get_coord s).2
  match X.head? with
  | none => .error .indexError
  | some row0 =>
    match searchWindow s.gt.dx x_min x_max row0 with
    | .error e => .error e
    | .ok (i_min, i_max) =>
      match searchWindow s.gt.dy y_min y_max (Y.map fun r => r.headD 0) with
      | .error e => .error e
      | .ok (j_min, j_max) =>
        let X_r := slice2 i_min i_max j_min j_max X
        let Y_r := slice2 i_min i_max j_min j_max Y
        match s.ds with
        | none => .error .attributeError
        | some a =>
          let a_r := slice2 i_min i_max j_min j_max a
          match X_r.head?.bind List.head?, Y_r.head?.bind List.head? with
          | some x00, some y00 =>
            .ok (a_r,
              { s with
                gt := ⟨x00, s.gt.dx, 0, y00, 0, s.gt.dy⟩
                ny := X_r.length
                nx := (X_r.headD []).length
                resample_indxs := some (i_min, i_max, j_min, j_max) })
          | _, _ => .error .indexError

/-- `GeoDriver.get_array` (geodriver.py, lines 82-89): with a bbox delegate to
`resample_bbox`, otherwise `self.ds.ReadAsArray()`, which on a closed handle
is an attribute access on `None`. -/
def get_array (s : Driver) (resample : Option (ℚ × ℚ × ℚ × ℚ)) :
    Except PyError (List (List ℚ) × Driver) :=
  match resample with
  | some (x_min, y_min, x_max, y_max) => resample_bbox s x_min y_min x_max y_max
  | none =>
    match s.ds with
    | none => .error .attributeError
    | some a => .ok (a, s)

/-- `gdal.ApplyGeoTransform(gt, px, py)`: the affine map
`(gt0 + px*gt1 + py*gt2, gt3 + px*gt4 + py*gt5)` (used at geodriver.py, line
164). -/
def applyGeoTransform (gt : GeoTransform) (px py : ℚ) : ℚ × ℚ :=
  (gt.x0 + px * gt.dx + py * gt.rx, gt.y0 + px * gt.ry + py * gt.dy)

/-- `GetProjParm(name, default)` of the raster's spatial reference, with the
parameter list of the CRS supplied as an association list (the CRS object is
external to this repository). -/
def getProjParm (crs : List (String × ℚ)) (name : String) (dflt : ℚ) : ℚ :=
  match crs.lookup name with
  | some v => v
  | none => dflt

/-- The record built by `geogrid_index` (geodriver.py, lines 175-186). -/
structure IndexRecord where
  projection : String
  dx : ℚ
  dy : ℚ
  truelat1 : ℚ
  truelat2 : ℚ
  stdlon : ℚ
  known_x : ℚ
  known_y : ℚ
  known_lon : ℚ
  known_lat : ℚ
  row_order : String
  deriving DecidableEq

/-- `GeoDriver.geogrid_index` (geodriver.py, lines 148-186).  `toLatLong` is
the external `pyproj.transform(self.pyproj, self.pyproj.to_latlong(), ., .)`
conversion from the raster's projected coordinates to geographic lon/lat;
`crs` carries the projection parameters that `GetProjParm` reads. -/
def geogrid_index (toLatLong : ℚ → ℚ → ℚ × ℚ) (crs : List (String × ℚ))
    (s : Driver) : IndexRecord :=
  let known_x : ℚ := ((s.nx : ℚ) + 1) / 2
  let known_y : ℚ := ((s.ny : ℚ) + 1) / 2
  let known_x_uns : ℚ := known_x - 1/2
  let known_y_uns : ℚ := known_y - 1/2
  let pos := applyGeoTransform s.gt known_x_uns known_y_uns
  let ll := toLatLong pos.1 pos.2
  { projection := s.projwrf
    dx := s.gt.dx
    dy := s.gt.dy
    truelat1 := getProjParm crs "standard_parallel_1" 0
    truelat2 := getProjParm crs "standard_parallel_2" 0
    stdlon := getProjParm crs "longitude_of_center"
      (getProjParm crs "central_meridian" (getProjParm crs "longitude_of_origin" 0))
    known_x := known_x
    known_y := known_y
    known_lon := ll.1
    known_lat := ll.2
    row_order := if 0 < s.gt.dy then "bottom_top" else "top_bottom" }

/-- Total number of cells in a 2-d array. -/
def gridCells (g : List (List ℚ)) : Nat := (g.map List.length).sum

/-- A concrete 4-row, 5-column raster for concrete runs: the geotransform of
the specification's grid-construction test, `gt = (100, 10, 0, 500, 0, -10)`,
`nx = 5`, `ny = 4`, with cell (r, c) carrying the value 10r + c. -/
def d1data : List (List ℚ) :=
  [[0, 1, 2, 3, 4], [10, 11, 12, 13, 14], [20, 21, 22, 23, 24], [30, 31, 32, 33, 34]]

/-- The driver state wrapping `d1data` (a geographic raster, so the short
projection string is `latlong`). -/
def d1 : Driver :=
  { ds := some d1data, nx := 5, ny := 4, gt := ⟨100, 10, 0, 500, 0, -10⟩,
    projstr := "latlong", projwrf := "regular_ll", reproj := false,
    resample_indxs := none }

/-- The array `resample_bbox` returns on `d1` for the native-projection bbox
corners (100, 470) and (140, 500): the half-open window drops row index 4 of
the column search and the slice keeps only 3 columns. -/
def c1crop : List (List ℚ) :=
  [[0, 1, 2], [10, 11, 12], [20, 21, 22], [30, 31, 32]]

/-- The driver state after that crop. -/
def c1post : Driver :=
  { ds := some d1data, nx := 3, ny := 4, gt := ⟨100, 10, 0, 500, 0, -10⟩,
    projstr := "latlong", projwrf := "regular_ll", reproj := false,
    resample_indxs := some (0, 4, 0, 3) }

/-- The array `resample_bbox` returns on `d1` for the bbox corners (115, 470)
and (140, 500): the column window (2, 4) is applied to the row axis, so rows
2 and 3 survive. -/
def c10crop : List (List ℚ) := [[20, 21, 22], [30, 31, 32]]

/-- The driver state after that crop; the cached window (2, 4, 0, 3) is kept
together with the cropped dimensions 2 by 3. -/
def c10post : Driver :=
  { ds := some d1data, nx := 3, ny := 2, gt := ⟨100, 10, 0, 480, 0, -10⟩,
    projstr := "latlong", projwrf := "regular_ll", reproj := false,
    resample_indxs := some (2, 4, 0, 3) }

/-- A dataset wrapping `d1data`, as `gdal.Open` would deliver it. -/
def d1ds : Dataset :=
  { rasterXSize := 5, rasterYSize := 4, projstr := "latlong",
    gt := ⟨100, 10, 0, 500, 0, -10⟩, data := d1data }

/-! Supporting lemmas about the list-level building blocks. -/

lemma pyslice_getElem? (lo hi k : Nat) (xs : List α) :
    (pyslice lo hi xs)[k]? = if lo + k < hi then xs[lo + k]? else none := by
  unfold pyslice
  rcases lt_or_ge (lo + k) hi with h | h
  · rw [List.getElem?_drop, List.getElem?_take, if_pos h]
  · have hlen : ((xs.take hi).drop lo).length ≤ k := by
      simp only [List.length_drop, List.length_take]
      omega
    rw [List.getElem?_eq_none hlen, if_neg (by omega)]

lemma pyslice_length (lo hi : Nat) (xs : List α) :
    (pyslice lo hi xs).length = min hi xs.length - lo := by
  simp [pyslice]

lemma pyslice_head? (lo hi : Nat) (xs : List α) :
    (pyslice lo hi xs).head? = if lo < hi then xs[lo]? else none := by
  rw [List.head?_eq_getElem?, pyslice_getElem?]
  simp

lemma pyslice_sublist (lo hi : Nat) (xs : List α) :
    List.Sublist (pyslice lo hi xs) xs :=
  List.Sublist.trans (List.drop_sublist lo (xs.take hi)) (List.take_sublist hi xs)

lemma slice2_getElem? (ilo ihi jlo jhi r : Nat) (g : List (List α)) :
    (slice2 ilo ihi jlo jhi g)[r]? =
      if ilo + r < ihi then (g[ilo + r]?).map (pyslice jlo jhi) else none := by
  unfold slice2
  rw [List.getElem?_map, pyslice_getElem?]
  split <;> simp

lemma slice2_length (ilo ihi jlo jhi : Nat) (g : List (List α)) :
    (slice2 ilo ihi jlo jhi g).length = min ihi g.length - ilo := by
  simp [slice2, pyslice_length]

lemma slice2_head? (ilo ihi jlo jhi : Nat) (g : List (List α)) :
    (slice2 ilo ihi jlo jhi g).head? =
      if ilo < ihi then (g[ilo]?).map (pyslice jlo jhi) else none := by
  rw [List.head?_eq_getElem?, slice2_getElem?]
  simp

lemma slice2_rows {g : List (List α)} {row : List α} {ilo ihi jlo jhi : Nat}
    (h : row ∈ slice2 ilo ihi jlo jhi g) :
    ∃ r0 ∈ g, row = pyslice jlo jhi r0 := by
  rcases List.mem_map.mp h with ⟨r0, hr0, rfl⟩
  exact ⟨r0, (pyslice_sublist ilo ihi g).mem hr0, rfl⟩

lemma arange_length (x0 d : ℚ) (n : Nat) : (arange x0 d n).length = n := by
  simp [arange]

lemma arange_getElem? (x0 d : ℚ) (n k : Nat) :
    (arange x0 d n)[k]? = if k < n then some (x0 + (k : ℚ) * d) else none := by
  unfold arange
  rw [List.getElem?_map]
  rcases lt_or_ge k n with h | h
  · rw [List.getElem?_range h]; simp [h]
  · rw [List.getElem?_eq_none (by simpa using h), if_neg (by omega)]; rfl

lemma headD_eq_getD_zero (xs : List α) (d : α) : xs.headD d = xs.getD 0 d := by
  cases xs <;> rfl

lemma meshX_length (s : Driver) : (meshX s).length = s.ny := by simp [meshX]

lemma meshY_length (s : Driver) : (meshY s).length = s.ny := by
  simp [meshY, arange_length]

lemma meshX_getElem? (s : Driver) (r : Nat) :
    (meshX s)[r]? = if r < s.ny then some (arange s.gt.x0 s.gt.dx s.nx) else none := by
  unfold meshX
  rw [List.getElem?_map]
  rcases lt_or_ge r s.ny with h | h
  · rw [List.getElem?_range h]; simp [h]
  · rw [List.getElem?_eq_none (by simpa using h), if_neg (by omega)]; rfl

lemma meshY_getElem? (s : Driver) (r : Nat) :
    (meshY s)[r]? =
      if r < s.ny then some (List.replicate s.nx (s.gt.y0 + (r : ℚ) * s.gt.dy))
      else none := by
  unfold meshY
  rw [List.getElem?_map, arange_getElem?]
  split <;> rfl

lemma meshX_rows {s : Driver} {row : List ℚ} (h : row ∈ meshX s) :
    row = arange s.gt.x0 s.gt.dx s.nx := by
  rcases List.mem_map.mp h with ⟨_, _, rfl⟩
  rfl

lemma meshY_rows {s : Driver} {row : List ℚ} (h : row ∈ meshY s) :
    row.length = s.nx := by
  rcases List.mem_map.mp h with ⟨_, _, rfl⟩
  simp

lemma foldl_min_mem (l : List Nat) : ∀ a : Nat, l.foldl min a ∈ a :: l := by
  induction l with
  | nil => intro a; simp
  | cons x t ih =>
    intro a
    simp only [List.foldl_cons]
    rcases List.mem_cons.mp (ih (min a x)) with h1 | h1
    · rw [h1]
      have hm : min a x = a ∨ min a x = x := by omega
      rcases hm with hm | hm <;> rw [hm] <;> simp
    · exact List.mem_cons_of_mem _ (List.mem_cons_of_mem _ h1)

lemma foldl_min_le (l : List Nat) : ∀ a b : Nat, b ∈ a :: l → l.foldl min a ≤ b := by
  induction l with
  | nil =>
    intro a b hb
    simp only [List.mem_singleton] at hb
    simp [hb]
  | cons x t ih =>
    intro a b hb
    simp only [List.foldl_cons]
    rcases List.mem_cons.mp hb with rfl | hb'
    · exact (ih _ _ (List.mem_cons_self _ _)).trans (by omega)
    · rcases List.mem_cons.mp hb' with rfl | hb''
      · exact (ih _ _ (List.mem_cons_self _ _)).trans (by omega)
      · exact ih _ _ (List.mem_cons_of_mem _ hb'')

lemma foldl_max_mem (l : List Nat) : ∀ a : Nat, l.foldl max a ∈ a :: l := by
  induction l with
  | nil => intro a; simp
  | cons x t ih =>
    intro a
    simp only [List.foldl_cons]
    rcases List.mem_cons.mp (ih (max a x)) with h1 | h1
    · rw [h1]
      have hm : max a x = a ∨ max a x = x := by omega
      rcases hm with hm | hm <;> rw [hm] <;> simp
    · exact List.mem_cons_of_mem _ (List.mem_cons_of_mem _ h1)

lemma foldl_max_ge (l : List Nat) : ∀ a b : Nat, b ∈ a :: l → b ≤ l.foldl max a := by
  induction l with
  | nil =>
    intro a b hb
    simp only [List.mem_singleton] at hb
    simp [hb]
  | cons x t ih =>
    intro a b hb
    simp only [List.foldl_cons]
    rcases List.mem_cons.mp hb with rfl | hb'
    · exact le_trans (by omega : b ≤ max b x) (ih _ _ (List.mem_cons_self _ _))
    · rcases List.mem_cons.mp hb' with rfl | hb''
      · exact le_trans (by omega : b ≤ max a b) (ih _ _ (List.mem_cons_self _ _))
      · exact ih _ _ (List.mem_cons_of_mem _ hb'')

lemma npMin_spec {xs : List Nat} {m : Nat} (h : npMin xs = .ok m) :
    m ∈ xs ∧ ∀ b ∈ xs, m ≤ b := by
  cases xs with
  | nil => simp [npMin] at h
  | cons x t =>
    simp only [npMin, Except.ok.injEq] at h
    subst h
    exact ⟨foldl_min_mem t x, fun b hb => foldl_min_le t x b hb⟩

lemma npMax_spec {xs : List Nat} {m : Nat} (h : npMax xs = .ok m) :
    m ∈ xs ∧ ∀ b ∈ xs, b ≤ m := by
  cases xs with
  | nil => simp [npMax] at h
  | cons x t =>
    simp only [npMax, Except.ok.injEq] at h
    subst h
    exact ⟨foldl_max_mem t x, fun b hb => foldl_max_ge t x b hb⟩

lemma npMin_ok_ne_nil {xs : List Nat} {m : Nat} (h : npMin xs = .ok m) : xs ≠ [] := by
  intro hnil
  subst hnil
  simp [npMin] at h

lemma npMax_ok_ne_nil {xs : List Nat} {m : Nat} (h : npMax xs = .ok m) : xs ≠ [] := by
  intro hnil
  subst hnil
  simp [npMax] at h

lemma searchWindow_ok_sets {d lo hi : ℚ} {vals : List ℚ} {w : Nat × Nat}
    (h : searchWindow d lo hi vals = .ok w) :
    whereIdx (fun v => decide (lo ≤ v)) vals ≠ [] ∧
    whereIdx (fun v => decide (v ≤ hi)) vals ≠ [] := by
  simp only [searchWindow] at h
  split at h
  · split at h
    · simp at h
    · rename_i lo' hmin
      split at h
      · simp at h
      · rename_i hi' hmax
        exact ⟨npMin_ok_ne_nil hmin, npMax_ok_ne_nil hmax⟩
  · split at h
    · simp at h
    · rename_i hi' hmax
      split at h
      · simp at h
      · rename_i lo' hmin
        exact ⟨npMax_ok_ne_nil hmax, npMin_ok_ne_nil hmin⟩

lemma searchWindow_pos_spec {d lo hi : ℚ} {vals : List ℚ}
    (hd : 0 < d)
    (h1 : whereIdx (fun v => decide (lo ≤ v)) vals ≠ [])
    (h2 : whereIdx (fun v => decide (v ≤ hi)) vals ≠ []) :
    ∃ a b, searchWindow d lo hi vals = .ok (a, b) ∧
      npMin (whereIdx (fun v => decide (lo ≤ v)) vals) = .ok a ∧
      npMax (whereIdx (fun v => decide (v ≤ hi)) vals) = .ok b := by
  obtain ⟨x1, t1, he1⟩ := List.exists_cons_of_ne_nil h1
  obtain ⟨x2, t2, he2⟩ := List.exists_cons_of_ne_nil h2
  refine ⟨t1.foldl min x1, t2.foldl max x2, ?_, by rw [he1]; rfl, by rw [he2]; rfl⟩
  simp only [searchWindow]
  rw [if_pos hd, he1, he2]
  rfl

lemma searchWindow_neg_spec {d lo hi : ℚ} {vals : List ℚ}
    (hd : ¬ 0 < d)
    (h1 : whereIdx (fun v => decide (lo ≤ v)) vals ≠ [])
    (h2 : whereIdx (fun v => decide (v ≤ hi)) vals ≠ []) :
    ∃ a b, searchWindow d lo hi vals = .ok (a, b) ∧
      npMin (whereIdx (fun v => decide (v ≤ hi)) vals) = .ok a ∧
      npMax (whereIdx (fun v => decide (lo ≤ v)) vals) = .ok b := by
  obtain ⟨x1, t1, he1⟩ := List.exists_cons_of_ne_nil h1
  obtain ⟨x2, t2, he2⟩ := List.exists_cons_of_ne_nil h2
  refine ⟨t2.foldl min x2, t1.foldl max x1, ?_, by rw [he2]; rfl, by rw [he1]; rfl⟩
  simp only [searchWindow]
  rw [if_neg hd, he1, he2]
  rfl

lemma slice2_bind_head?_some {g : List (List ℚ)} {il ih jl jh : Nat} {v : ℚ}
    (h : (slice2 il ih jl jh g).head?.bind List.head? = some v) :
    il < ih ∧ jl < jh ∧ ∃ row, g[il]? = some row ∧ row[jl]? = some v := by
  rw [slice2_head?] at h
  by_cases hih : il < ih
  · rw [if_pos hih] at h
    cases hg : g[il]? with
    | none => rw [hg] at h; simp at h
    | some row =>
      rw [hg] at h
      simp only [Option.map_some', Option.some_bind] at h
      rw [pyslice_head?] at h
      by_cases hjh : jl < jh
      · rw [if_pos hjh] at h
        exact ⟨hih, hjh, row, rfl, h⟩
      · rw [if_neg hjh] at h
        simp at h
  · rw [if_neg hih] at h
    simp at h

lemma slice2_headD {g : List (List α)} {il ih jl jh : Nat} {row : List α}
    (hih : il < ih) (hrow : g[il]? = some row) :
    (slice2 il ih jl jh g).headD [] = pyslice jl jh row := by
  rw [List.headD_eq_head?_getD, slice2_head?, if_pos hih, hrow]
  rfl

/-- Inversion of a successful `resample_bbox`: every intermediate value the
source computes on the way to `return a_r`, read back off the result. -/
lemma resample_ok_inv {s : Driver} {x_min y_min x_max y_max : ℚ}
    {ar : List (List ℚ)} {s' : Driver}
    (h : resample_bbox s x_min y_min x_max y_max = .ok (ar, s')) :
    ∃ row0 i_min i_max j_min j_max a x00 y00,
      (get_coord s).1.head? = some row0 ∧
      searchWindow s.gt.dx x_min x_max row0 = .ok (i_min, i_max) ∧
      searchWindow s.gt.dy y_min y_max ((get_coord s).2.map fun r => r.headD 0) =
        .ok (j_min, j_max) ∧
      s.ds = some a ∧
      (slice2 i_min i_max j_min j_max (get_coord s).1).head?.bind List.head? = some x00 ∧
      (slice2 i_min i_max j_min j_max (get_coord s).2).head?.bind List.head? = some y00 ∧
      ar = slice2 i_min i_max j_min j_max a ∧
      s' = { s with
        gt := ⟨x00, s.gt.dx, 0, y00, 0, s.gt.dy⟩
        ny := (slice2 i_min i_max j_min j_max (get_coord s).1).length
        nx := ((slice2 i_min i_max j_min j_max (get_coord s).1).headD []).length
        resample_indxs := some (i_min, i_max, j_min, j_max) } := by
  simp only [resample_bbox] at h
  split at h
  · simp at h
  · rename_i row0 hrow
    split at h
    · simp at h
    · rename_i i_min i_max hsw1
      split at h
      · simp at h
      · rename_i j_min j_max hsw2
        split at h
        · simp at h
        · rename_i a hds
          split at h
          · rename_i x00 y00 hx00 hy00
            simp only [Except.ok.injEq, Prod.mk.injEq] at h
            exact ⟨row0, i_min, i_max, j_min, j_max, a, x00, y00, hrow, hsw1, hsw2,
              hds, hx00, hy00, h.1.symm, h.2.symm⟩
          · simp at h

lemma replicate_getElem? (n k : Nat) (a : α) :
    (List.replicate n a)[k]? = if k < n then some a else none := by
  rcases lt_or_ge k n with h | h
  · rw [if_pos h, List.getElem?_eq_getElem (by simpa using h)]
    simp
  · rw [List.getElem?_eq_none (by simpa using h), if_neg (by omega)]

lemma get_coord_fresh {s : Driver} (h : s.resample_indxs = none) :
    get_coord s = (meshX s, meshY s) := by
  simp [get_coord, h]

/-- A successful `resample_bbox` from a state with no cached window, unpacked
into explicit formulas over the freshly built mesh. -/
lemma resample_fresh_spec {s : Driver} {x_min y_min x_max y_max : ℚ}
    {ar : List (List ℚ)} {s' : Driver}
    (hfresh : s.resample_indxs = none)
    (hok : resample_bbox s x_min y_min x_max y_max = .ok (ar, s')) :
    ∃ il ih jl jh,
      searchWindow s.gt.dx x_min x_max (arange s.gt.x0 s.gt.dx s.nx) = .ok (il, ih) ∧
      searchWindow s.gt.dy y_min y_max ((meshY s).map fun r => r.headD 0) = .ok (jl, jh) ∧
      il < s.ny ∧ il < ih ∧ jl < s.nx ∧ jl < jh ∧
      s' = { s with
        gt := ⟨s.gt.x0 + (jl : ℚ) * s.gt.dx, s.gt.dx, 0,
               s.gt.y0 + (il : ℚ) * s.gt.dy, 0, s.gt.dy⟩
        ny := min ih s.ny - il
        nx := min jh s.nx - jl
        resample_indxs := some (il, ih, jl, jh) } ∧
      ∀ a, s.ds = some a → ar = slice2 il ih jl jh a := by
  obtain ⟨row0, il, ih, jl, jh, a0, x00, y00, hrow, hsw1, hsw2, hds, hx00, hy00,
    har, hs'⟩ := resample_ok_inv hok
  rw [get_coord_fresh hfresh] at hrow hsw2 hx00 hy00 hs'
  simp only at hrow hsw2 hx00 hy00 hs'
  rw [List.head?_eq_getElem?, meshX_getElem?] at hrow
  by_cases hny : 0 < s.ny
  swap
  · rw [if_neg hny] at hrow
    simp at hrow
  rw [if_pos hny, Option.some.injEq] at hrow
  obtain ⟨hih, hjh, rowX, hrowX, hxval⟩ := slice2_bind_head?_some hx00
  obtain ⟨himY, hjmY, rowY, hrowY, hyval⟩ := slice2_bind_head?_some hy00
  rw [meshX_getElem?] at hrowX
  by_cases hil : il < s.ny
  swap
  · rw [if_neg hil] at hrowX
    simp at hrowX
  rw [if_pos hil, Option.some.injEq] at hrowX
  rw [meshY_getElem?, if_pos hil, Option.some.injEq] at hrowY
  rw [← hrowX, arange_getElem?] at hxval
  by_cases hjlnx : jl < s.nx
  swap
  · rw [if_neg hjlnx] at hxval
    simp at hxval
  rw [if_pos hjlnx, Option.some.injEq] at hxval
  rw [← hrowY, replicate_getElem?, if_pos hjlnx, Option.some.injEq] at hyval
  have hmx : (meshX s)[il]? = some (arange s.gt.x0 s.gt.dx s.nx) := by
    rw [meshX_getElem?, if_pos hil]
  have hnyfield : (slice2 il ih jl jh (meshX s)).length = min ih s.ny - il := by
    rw [slice2_length, meshX_length]
  have hnxfield : ((slice2 il ih jl jh (meshX s)).headD []).length = min jh s.nx - jl := by
    rw [slice2_headD hih hmx, pyslice_length, arange_length]
  refine ⟨il, ih, jl, jh, ?_, hsw2, hil, hih, hjlnx, hjh, ?_, ?_⟩
  · rw [← hrow] at hsw1
    exact hsw1
  · rw [hs', ← hxval, ← hyval, hnyfield, hnxfield]
  · intro a ha
    rw [hds, Option.some.injEq] at ha
    rw [har, ha]

lemma pyslice_getD {lo hi k : Nat} {xs : List α} (d : α)
    (h1 : lo + k < hi) :
    (pyslice lo hi xs).getD k d = xs.getD (lo + k) d := by
  rw [List.getD_eq_getElem?_getD, pyslice_getElem?, if_pos h1,
    List.getD_eq_getElem?_getD]

lemma gridCells_rect {g : List (List ℚ)} {L : Nat} (h : ∀ r ∈ g, r.length = L) :
    gridCells g = g.length * L := by
  induction g with
  | nil => simp [gridCells]
  | cons r t ih =>
    have hr := h r (List.mem_cons_self _ _)
    have ht := ih fun x hx => h x (List.mem_cons_of_mem _ hx)
    simp only [gridCells, List.map_cons, List.sum_cons, List.length_cons] at ht ⊢
    rw [hr, ht, Nat.succ_mul]
    omega

lemma slice2_row_len {g : List (List α)} {L il ih jl jh : Nat}
    (hL : ∀ r ∈ g, r.length = L) :
    ∀ row ∈ slice2 il ih jl jh g, row.length = min jh L - jl := by
  intro row hrow
  obtain ⟨r0, hr0, rfl⟩ := slice2_rows hrow
  rw [pyslice_length, hL r0 hr0]

lemma meshX_row_len (s : Driver) : ∀ row ∈ meshX s, row.length = s.nx := by
  intro row h
  rw [meshX_rows h, arange_length]

lemma meshY_row_len (s : Driver) : ∀ row ∈ meshY s, row.length = s.nx :=
  fun _ h => meshY_rows h

lemma rect_headD_length {g : List (List ℚ)} {L : Nat}
    (h0 : 0 < g.length) (h : ∀ r ∈ g, r.length = L) : (g.headD []).length = L := by
  cases g with
  | nil => simp at h0
  | cons r t => exact h r (List.mem_cons_self _ _)

/-- Shape facts for a rectangular grid sliced by a window. -/
lemma slice2_of_rect {g : List (List ℚ)} {N L il ih jl jh : Nat}
    (hlen : g.length = N) (hrows : ∀ r ∈ g, r.length = L) :
    gridCells (slice2 il ih jl jh g) = (min ih N - il) * (min jh L - jl) ∧
    (slice2 il ih jl jh g).length = min ih N - il ∧
    (0 < min ih N - il →
      ((slice2 il ih jl jh g).headD []).length = min jh L - jl) := by
  have h1 : (slice2 il ih jl jh g).length = min ih N - il := by
    rw [slice2_length, hlen]
  have h2 : ∀ row ∈ slice2 il ih jl jh g, row.length = min jh L - jl :=
    slice2_row_len hrows
  refine ⟨?_, h1, ?_⟩
  · rw [gridCells_rect h2, h1]
  · intro h0
    exact rect_headD_length (by omega) h2

lemma sub_mul_lt {A B il jl : Nat} (hA : 0 < A) (hB : 0 < B)
    (hpos : 0 < il ∨ 0 < jl) : (A - il) * (B - jl) < A * B := by
  rcases hpos with h | h
  · calc (A - il) * (B - jl) ≤ (A - il) * B :=
          Nat.mul_le_mul (le_refl _) (Nat.sub_le _ _)
      _ < A * B := mul_lt_mul_of_pos_right (by omega) hB
  · calc (A - il) * (B - jl) ≤ A * (B - jl) :=
          Nat.mul_le_mul (Nat.sub_le _ _) (le_refl _)
      _ < A * B := mul_lt_mul_of_pos_left (by omega) hA

/-- Slicing a rebuilt grid of the already-cropped shape (A, B) with the same
window again yields strictly fewer cells than slicing the original grid, and
a different grid, as soon as the window does not start at the origin. -/
lemma slice2_shrink {gOld gNew : List (List ℚ)} {il ih jl jh A B Nold Lold : Nat}
    (hA : A = min ih Nold - il) (hB : B = min jh Lold - jl)
    (hApos : 0 < A) (hBpos : 0 < B)
    (hOldN : gOld.length = Nold) (hOldL : ∀ r ∈ gOld, r.length = Lold)
    (hNewN : gNew.length = A) (hNewL : ∀ r ∈ gNew, r.length = B)
    (hpos : 0 < il ∨ 0 < jl) :
    gridCells (slice2 il ih jl jh gNew) < gridCells (slice2 il ih jl jh gOld) ∧
    slice2 il ih jl jh gNew ≠ slice2 il ih jl jh gOld := by
  obtain ⟨hcellsO, hlenO, hheadO⟩ := @slice2_of_rect gOld Nold Lold il ih jl jh hOldN hOldL
  obtain ⟨hcellsN, hlenN, hheadN⟩ := @slice2_of_rect gNew A B il ih jl jh hNewN hNewL
  have hAih : A ≤ ih := by omega
  have hBjh : B ≤ jh := by omega
  have hminA : min ih A = A := by omega
  have hminB : min jh B = B := by omega
  constructor
  · rw [hcellsN, hcellsO, ← hA, ← hB, hminA, hminB]
    exact sub_mul_lt hApos hBpos hpos
  · intro heq
    rcases Nat.eq_zero_or_pos il with hil0 | hilpos
    · rcases hpos with h | h
      · omega
      · have h1 := hheadO (by omega)
        have h2 := hheadN (by omega)
        have hcong := congrArg (fun l => (l.headD []).length) heq
        simp only at hcong
        rw [h1, h2] at hcong
        omega
    · have hcong := congrArg List.length heq
      rw [hlenN, hlenO] at hcong
      omega

/-! The claim theorems. -/

/-- C4: for a raster with no cached resample window (and the nonzero axis
spacings required by `np.arange`), `get_coord` returns two `ny` by `nx` grids
with `X[r][c] = x0 + c*dx` and `Y[r][c] = y0 + r*dy`; the witness checks the
concrete instance `gt = (100, 10, 0, 500, 0, -10)`, `nx = 5`, `ny = 4`. -/
theorem c4_grid_construction (s : Driver)
    (h : s.resample_indxs = none) (_hdx : s.gt.dx ≠ 0) (_hdy : s.gt.dy ≠ 0) :
    (get_coord s).1.length = s.ny ∧
    (∀ row ∈ (get_coord s).1, row.length = s.nx) ∧
    (get_coord s).2.length = s.ny ∧
    (∀ row ∈ (get_coord s).2, row.length = s.nx) ∧
    ∀ r c, r < s.ny → c < s.nx →
      ((get_coord s).1.getD r []).getD c 0 = s.gt.x0 + (c : ℚ) * s.gt.dx ∧
      ((get_coord s).2.getD r []).getD c 0 = s.gt.y0 + (r : ℚ) * s.gt.dy := by
  simp only [get_coord_fresh h]
  refine ⟨meshX_length s, meshX_row_len s, meshY_length s, meshY_row_len s, ?_⟩
  intro r c hr hc
  constructor
  · simp only [List.getD_eq_getElem?_getD]
    rw [meshX_getElem?, if_pos hr, Option.getD_some, arange_getElem?, if_pos hc,
      Option.getD_some]
  · simp only [List.getD_eq_getElem?_getD]
    rw [meshY_getElem?, if_pos hr, Option.getD_some, replicate_getElem?, if_pos hc,
      Option.getD_some]

/-- Witness for C4 at the specification's concrete raster `d1`: the first
grid row is 100..140, the first grid column is 500..470, and the general
theorem applies. -/
theorem c4_witness :
    (get_coord d1).1.headD [] = [100, 110, 120, 130, 140] ∧
    ((get_coord d1).2.map fun r => r.headD 0) = [500, 490, 480, 470] ∧
    ((get_coord d1).1.length = d1.ny ∧
     (∀ row ∈ (get_coord d1).1, row.length = d1.nx) ∧
     (get_coord d1).2.length = d1.ny ∧
     (∀ row ∈ (get_coord d1).2, row.length = d1.nx) ∧
     ∀ r c, r < d1.ny → c < d1.nx →
       ((get_coord d1).1.getD r []).getD c 0 = d1.gt.x0 + (c : ℚ) * d1.gt.dx ∧
       ((get_coord d1).2.getD r []).getD c 0 = d1.gt.y0 + (r : ℚ) * d1.gt.dy) :=
  ⟨by with_unfolding_all rfl, by with_unfolding_all rfl,
   c4_grid_construction d1 rfl (by norm_num [d1]) (by norm_num [d1])⟩

/-- C5 counterexample: the duplicate dict key makes `stere` resolve to
`polar_wgs84`, not to `polar` as the claim states. -/
theorem c5_counterexample :
    init_proj_resolve "stere" = ("polar_wgs84", false) ∧
    init_proj_resolve "stere" ≠ ("polar", false) := by
  constructor
  · rfl
  · decide

/-- C5 (corrected): the dict literal has five distinct keys (`stere` is
written twice and Python keeps the last binding), each recognized family
resolves with the needs-reprojection flag `false`, and the tag `polar` is
unreachable. -/
theorem c5_projection_table :
    init_proj_resolve "lcc" = ("lambert", false) ∧
    init_proj_resolve "stere" = ("polar_wgs84", false) ∧
    init_proj_resolve "merc" = ("mercator", false) ∧
    init_proj_resolve "latlong" = ("regular_ll", false) ∧
    init_proj_resolve "aea" = ("albers_nad83", false) ∧
    ∀ k, pyDictGet projwrfEntries k ≠ some "polar" := by
  refine ⟨rfl, rfl, rfl, rfl, rfl, ?_⟩
  intro k
  simp only [pyDictGet, projwrfEntries, List.foldl_cons, List.foldl_nil]
  split_ifs <;> decide

/-- Witness for C5: the amended table facts at the concrete key `stere`. -/
theorem c5_witness :
    pyDictGet projwrfEntries "stere" ≠ some "polar" ∧
    init_proj_resolve "lcc" = ("lambert", false) :=
  ⟨c5_projection_table.2.2.2.2.2 "stere", c5_projection_table.1⟩

/-- C6 counterexample: when the external open fails, `from_file` returns the
value `None` and raises nothing; in particular it does not raise the
specification's `OpenError`. -/
theorem c6_counterexample :
    from_file none = .ok none ∧
    from_file none ≠ .error .openError := by
  refine ⟨rfl, ?_⟩
  simp [from_file]

/-- C6 (corrected): `from_file` propagates an open failure as a silent `None`
result, never as an exception; on success it returns the constructed
driver. -/
theorem c6_from_file_none :
    from_file none = .ok none ∧
    ∀ d, from_file (some d) = .ok (some (construct d)) :=
  ⟨rfl, fun _ => rfl⟩

/-- Witness for C6 at the concrete dataset `d1ds`. -/
theorem c6_witness :
    from_file none = .ok none ∧
    from_file (some d1ds) = .ok (some (construct d1ds)) :=
  ⟨c6_from_file_none.1, c6_from_file_none.2 d1ds⟩

/-- C7: `geogrid_index` computes `known_x = (nx+1)/2` and `known_y =
(ny+1)/2` from the current (possibly post-crop) dimensions, shifts both by
one half, applies the affine transform, and pushes the projected position
through the CRS-to-geographic conversion to obtain the anchor lon/lat. -/
theorem c7_known_point (toLatLong : ℚ → ℚ → ℚ × ℚ) (crs : List (String × ℚ))
    (s : Driver) :
    (geogrid_index toLatLong crs s).known_x = ((s.nx : ℚ) + 1) / 2 ∧
    (geogrid_index toLatLong crs s).known_y = ((s.ny : ℚ) + 1) / 2 ∧
    ((geogrid_index toLatLong crs s).known_lon,
     (geogrid_index toLatLong crs s).known_lat) =
      toLatLong
        (applyGeoTransform s.gt (((s.nx : ℚ) + 1) / 2 - 1/2)
          (((s.ny : ℚ) + 1) / 2 - 1/2)).1
        (applyGeoTransform s.gt (((s.nx : ℚ) + 1) / 2 - 1/2)
          (((s.ny : ℚ) + 1) / 2 - 1/2)).2 :=
  ⟨rfl, rfl, rfl⟩

/-- Witness for C7 at `d1` with the identity standing in for the external
CRS-to-geographic conversion. -/
theorem c7_witness :
    (geogrid_index (fun a b => (a, b)) [] d1).known_x = ((d1.nx : ℚ) + 1) / 2 ∧
    (geogrid_index (fun a b => (a, b)) [] d1).known_y = ((d1.ny : ℚ) + 1) / 2 ∧
    ((geogrid_index (fun a b => (a, b)) [] d1).known_lon,
     (geogrid_index (fun a b => (a, b)) [] d1).known_lat) =
      ((applyGeoTransform d1.gt (((d1.nx : ℚ) + 1) / 2 - 1/2)
          (((d1.ny : ℚ) + 1) / 2 - 1/2)).1,
       (applyGeoTransform d1.gt (((d1.nx : ℚ) + 1) / 2 - 1/2)
          (((d1.ny : ℚ) + 1) / 2 - 1/2)).2) :=
  c7_known_point (fun a b => (a, b)) [] d1

/-- C8 counterexample: after `close`, the coordinate accessor `get_coord`
does not raise any error at all — it returns the same grids as before the
close, because it reads only the cached metadata; `get_array` raises the
generic attribute error of `None`, not a dedicated closed-resource error. -/
theorem c8_counterexample :
    get_coord (close d1) = get_coord d1 ∧
    (get_coord (close d1)).1.headD [] = [100, 110, 120, 130, 140] ∧
    get_array (close d1) none = .error .attributeError ∧
    close (close d1) = close d1 :=
  ⟨rfl, by with_unfolding_all rfl, rfl, rfl⟩

/-- C8 (corrected): `close` is idempotent; `get_array` after `close` raises
the generic `AttributeError` of accessing `None`; `get_coord` after `close`
raises nothing and behaves exactly as before the close. -/
theorem c8_close_behaviour (s : Driver) :
    close (close s) = close s ∧
    get_array (close s) none = .error .attributeError ∧
    get_coord (close s) = get_coord s :=
  ⟨rfl, rfl, rfl⟩

/-- Witness for C8 at the concrete driver `d1`. -/
theorem c8_witness :
    close (close d1) = close d1 ∧
    get_array (close d1) none = .error .attributeError ∧
    get_coord (close d1) = get_coord d1 :=
  c8_close_behaviour d1

/-- C3: with both index sets of an axis non-empty, positive spacing selects
`(min of the lower set, max of the upper set)` and negative spacing swaps the
roles, exactly as lines 121-126 and 129-134 of the source do; and a
successful `resample_bbox` caches precisely the two windows found by this
rule, the column search over `X[0]` first, the row search over `Y[:,0]`
second. -/
theorem c3_search_rule :
    (∀ (d lo hi : ℚ) (vals : List ℚ),
      whereIdx (fun v => decide (lo ≤ v)) vals ≠ [] →
      whereIdx (fun v => decide (v ≤ hi)) vals ≠ [] →
      (0 < d → ∃ i_min i_max,
        searchWindow d lo hi vals = .ok (i_min, i_max) ∧
        i_min ∈ whereIdx (fun v => decide (lo ≤ v)) vals ∧
        (∀ m ∈ whereIdx (fun v => decide (lo ≤ v)) vals, i_min ≤ m) ∧
        i_max ∈ whereIdx (fun v => decide (v ≤ hi)) vals ∧
        (∀ m ∈ whereIdx (fun v => decide (v ≤ hi)) vals, m ≤ i_max)) ∧
      (d < 0 → ∃ i_min i_max,
        searchWindow d lo hi vals = .ok (i_min, i_max) ∧
        i_min ∈ whereIdx (fun v => decide (v ≤ hi)) vals ∧
        (∀ m ∈ whereIdx (fun v => decide (v ≤ hi)) vals, i_min ≤ m) ∧
        i_max ∈ whereIdx (fun v => decide (lo ≤ v)) vals ∧
        (∀ m ∈ whereIdx (fun v => decide (lo ≤ v)) vals, m ≤ i_max))) ∧
    (∀ (s : Driver) (x_min y_min x_max y_max : ℚ) (ar : List (List ℚ)) (s' : Driver),
      resample_bbox s x_min y_min x_max y_max = .ok (ar, s') →
      ∃ i_min i_max j_min j_max,
        searchWindow s.gt.dx x_min x_max ((get_coord s).1.headD []) = .ok (i_min, i_max) ∧
        searchWindow s.gt.dy y_min y_max ((get_coord s).2.map fun r => r.headD 0) =
          .ok (j_min, j_max) ∧
        s'.resample_indxs = some (i_min, i_max, j_min, j_max)) := by
  constructor
  · intro d lo hi vals h1 h2
    constructor
    · intro hd
      obtain ⟨a, b, hw, hmin, hmax⟩ := searchWindow_pos_spec hd h1 h2
      obtain ⟨ha1, ha2⟩ := npMin_spec hmin
      obtain ⟨hb1, hb2⟩ := npMax_spec hmax
      exact ⟨a, b, hw, ha1, ha2, hb1, hb2⟩
    · intro hd
      obtain ⟨a, b, hw, hmin, hmax⟩ := searchWindow_neg_spec (lt_asymm hd) h1 h2
      obtain ⟨ha1, ha2⟩ := npMin_spec hmin
      obtain ⟨hb1, hb2⟩ := npMax_spec hmax
      exact ⟨a, b, hw, ha1, ha2, hb1, hb2⟩
  · intro s x_min y_min x_max y_max ar s' hok
    obtain ⟨row0, il, ih, jl, jh, a0, x00, y00, hrow, hsw1, hsw2, _, _, _, _, hs'⟩ :=
      resample_ok_inv hok
    have hrow0 : (get_coord s).1.headD [] = row0 := by
      rw [List.headD_eq_head?_getD, hrow]
      rfl
    refine ⟨il, ih, jl, jh, ?_, hsw2, ?_⟩
    · rw [hrow0]
      exact hsw1
    · rw [hs']

/-- Witness for C3: the positive-spacing rule applied to the concrete first
row of `d1` and the window-caching part applied to a concrete successful
crop. -/
theorem c3_witness :
    (((0:ℚ) < 10 → ∃ i_min i_max,
        searchWindow 10 100 140 [100, 110, 120, 130, 140] = .ok (i_min, i_max) ∧
        i_min ∈ whereIdx (fun v => decide ((100:ℚ) ≤ v)) [100, 110, 120, 130, 140] ∧
        (∀ m ∈ whereIdx (fun v => decide ((100:ℚ) ≤ v)) [100, 110, 120, 130, 140],
          i_min ≤ m) ∧
        i_max ∈ whereIdx (fun v => decide (v ≤ (140:ℚ))) [100, 110, 120, 130, 140] ∧
        (∀ m ∈ whereIdx (fun v => decide (v ≤ (140:ℚ))) [100, 110, 120, 130, 140],
          m ≤ i_max)) ∧
     ((10:ℚ) < 0 → ∃ i_min i_max,
        searchWindow 10 100 140 [100, 110, 120, 130, 140] = .ok (i_min, i_max) ∧
        i_min ∈ whereIdx (fun v => decide (v ≤ (140:ℚ))) [100, 110, 120, 130, 140] ∧
        (∀ m ∈ whereIdx (fun v => decide (v ≤ (140:ℚ))) [100, 110, 120, 130, 140],
          i_min ≤ m) ∧
        i_max ∈ whereIdx (fun v => decide ((100:ℚ) ≤ v)) [100, 110, 120, 130, 140] ∧
        (∀ m ∈ whereIdx (fun v => decide ((100:ℚ) ≤ v)) [100, 110, 120, 130, 140],
          m ≤ i_max))) ∧
    (∃ i_min i_max j_min j_max,
      searchWindow d1.gt.dx 100 140 ((get_coord d1).1.headD []) = .ok (i_min, i_max) ∧
      searchWindow d1.gt.dy 470 500 ((get_coord d1).2.map fun r => r.headD 0) =
        .ok (j_min, j_max) ∧
      c1post.resample_indxs = some (i_min, i_max, j_min, j_max)) :=
  ⟨c3_search_rule.1 10 100 140 [100, 110, 120, 130, 140]
      (by with_unfolding_all decide) (by with_unfolding_all decide),
   c3_search_rule.2 d1 100 470 140 500 c1crop c1post (by with_unfolding_all rfl)⟩

/-- C2 counterexample: for a bbox entirely to the right of `d1`, the empty
lower index set makes the numpy reduction raise its generic empty-selection
`ValueError`; no dedicated `BoundsError` is raised (none exists in the
code). -/
theorem c2_counterexample :
    resample_bbox d1 200 470 300 500 = .error .valueError ∧
    PyError.valueError ≠ PyError.boundsError :=
  ⟨by with_unfolding_all rfl, by decide⟩

/-- C2 (corrected): whenever one of the four index-search sets is empty,
`resample_bbox` raises an error — it never returns a zero-length or
malformed slice — but the error is numpy's uncaught empty-reduction
`ValueError`, not a dedicated `BoundsError`. -/
theorem c2_empty_selection (s : Driver) (x_min y_min x_max y_max : ℚ)
    (h : whereIdx (fun v => decide (x_min ≤ v)) ((get_coord s).1.headD []) = [] ∨
         whereIdx (fun v => decide (v ≤ x_max)) ((get_coord s).1.headD []) = [] ∨
         whereIdx (fun v => decide (y_min ≤ v))
           ((get_coord s).2.map fun r => r.headD 0) = [] ∨
         whereIdx (fun v => decide (v ≤ y_max))
           ((get_coord s).2.map fun r => r.headD 0) = []) :
    ∃ e, resample_bbox s x_min y_min x_max y_max = .error e := by
  cases hres : resample_bbox s x_min y_min x_max y_max with
  | error e => exact ⟨e, rfl⟩
  | ok p =>
    exfalso
    obtain ⟨ar, s2⟩ := p
    obtain ⟨row0, il, ih, jl, jh, a0, x00, y00, hrow, hsw1, hsw2, _, _, _, _, _⟩ :=
      resample_ok_inv hres
    have hrow0 : (get_coord s).1.headD [] = row0 := by
      rw [List.headD_eq_head?_getD, hrow]
      rfl
    obtain ⟨hx1, hx2⟩ := searchWindow_ok_sets hsw1
    obtain ⟨hy1, hy2⟩ := searchWindow_ok_sets hsw2
    rw [hrow0] at h
    rcases h with h | h | h | h
    · exact hx1 h
    · exact hx2 h
    · exact hy1 h
    · exact hy2 h

/-- Witness for C2 at the concrete out-of-extent bbox on `d1`. -/
theorem c2_witness :
    ∃ e, resample_bbox d1 200 470 300 500 = .error e :=
  c2_empty_selection d1 200 470 300 500 (Or.inl (by with_unfolding_all rfl))

/-- C1 counterexample: on `d1` with transformed corners (100, 470) and
(140, 500), the cell (r, c) = (0, 4) satisfies `x_min <= X[0][4] <= x_max`
and `y_min <= Y[0][0] <= y_max` and carries the value 4, yet the returned
crop keeps all four rows but only three columns and nowhere contains the
value 4: the half-open upper bounds and the row/column swap exclude it. -/
theorem c1_counterexample :
    resample_bbox d1 100 470 140 500 = .ok (c1crop, c1post) ∧
    ((get_coord d1).1.headD []).getD 4 0 = 140 ∧
    (100:ℚ) ≤ 140 ∧ (140:ℚ) ≤ 140 ∧
    ((get_coord d1).2.headD []).getD 0 0 = 500 ∧
    (470:ℚ) ≤ 500 ∧ (500:ℚ) ≤ 500 ∧
    (d1data.headD []).getD 4 0 = 4 ∧
    c1crop.length = 4 ∧ (c1crop.headD []).length = 3 ∧
    ¬ (4:ℚ) ∈ c1crop.flatten :=
  ⟨by with_unfolding_all rfl, by with_unfolding_all rfl, by norm_num, by norm_num,
   by with_unfolding_all rfl, by norm_num, by norm_num, by with_unfolding_all rfl,
   rfl, rfl, by with_unfolding_all decide⟩

/-- C1 (corrected): the data array and both coordinate grids are sliced with
the same cached window, but the window is half-open (the indices `i_max` and
`j_max` themselves are excluded), and the pair found by the column (X)
search indexes the row axis while the pair found by the row (Y) search
indexes the column axis; every cell strictly inside the window appears in
the crop at the shifted position. -/
theorem c1_crop_window (s : Driver) (x_min y_min x_max y_max : ℚ)
    (a0 ar : List (List ℚ)) (s' : Driver)
    (hds : s.ds = some a0)
    (hok : resample_bbox s x_min y_min x_max y_max = .ok (ar, s')) :
    ∃ i_min i_max j_min j_max,
      searchWindow s.gt.dx x_min x_max ((get_coord s).1.headD []) = .ok (i_min, i_max) ∧
      searchWindow s.gt.dy y_min y_max ((get_coord s).2.map fun r => r.headD 0) =
        .ok (j_min, j_max) ∧
      s'.resample_indxs = some (i_min, i_max, j_min, j_max) ∧
      ar = slice2 i_min i_max j_min j_max a0 ∧
      s'.ny = (slice2 i_min i_max j_min j_max (get_coord s).1).length ∧
      s'.nx = ((slice2 i_min i_max j_min j_max (get_coord s).1).headD []).length ∧
      ∀ r c, i_min ≤ r → r < i_max → r < a0.length → j_min ≤ c → c < j_max →
        c < (a0.getD r []).length →
        (ar.getD (r - i_min) []).getD (c - j_min) 0 = (a0.getD r []).getD c 0 := by
  obtain ⟨row0, il, ih, jl, jh, a1, x00, y00, hrow, hsw1, hsw2, hds1, hx00, hy00,
    har, hs'⟩ := resample_ok_inv hok
  have ha : a0 = a1 := by
    rw [hds] at hds1
    exact (Option.some.injEq _ _).mp hds1
  subst ha
  have hrow0 : (get_coord s).1.headD [] = row0 := by
    rw [List.headD_eq_head?_getD, hrow]
    rfl
  refine ⟨il, ih, jl, jh, ?_, hsw2, by rw [hs'], har, by rw [hs'], by rw [hs'], ?_⟩
  · rw [hrow0]
    exact hsw1
  · intro r c h1 h2 h3 h4 h5 h6
    rw [har]
    have hrr : (slice2 il ih jl jh a0).getD (r - il) [] = pyslice jl jh (a0.getD r []) := by
      rw [List.getD_eq_getElem?_getD, slice2_getElem?]
      have he : il + (r - il) = r := by omega
      rw [he, if_pos h2, List.getElem?_eq_getElem h3]
      simp only [Option.map_some', Option.getD_some]
      rw [List.getD_eq_getElem?_getD, List.getElem?_eq_getElem h3, Option.getD_some]
    rw [hrr]
    have he2 : jl + (c - jl) = c := by omega
    rw [pyslice_getD 0 (show jl + (c - jl) < jh by omega), he2]

/-- Witness for C1 at the concrete crop of `d1`. -/
theorem c1_witness :
    ∃ i_min i_max j_min j_max,
      searchWindow d1.gt.dx 100 140 ((get_coord d1).1.headD []) = .ok (i_min, i_max) ∧
      searchWindow d1.gt.dy 470 500 ((get_coord d1).2.map fun r => r.headD 0) =
        .ok (j_min, j_max) ∧
      c1post.resample_indxs = some (i_min, i_max, j_min, j_max) ∧
      c1crop = slice2 i_min i_max j_min j_max d1data ∧
      c1post.ny = (slice2 i_min i_max j_min j_max (get_coord d1).1).length ∧
      c1post.nx = ((slice2 i_min i_max j_min j_max (get_coord d1).1).headD []).length ∧
      ∀ r c, i_min ≤ r → r < i_max → r < d1data.length → j_min ≤ c → c < j_max →
        c < (d1data.getD r []).length →
        (c1crop.getD (r - i_min) []).getD (c - j_min) 0 = (d1data.getD r []).getD c 0 :=
  c1_crop_window d1 100 470 140 500 d1data c1crop c1post rfl (by with_unfolding_all rfl)

/-- C9: the window pair found by the X/column search indexes rows and the
pair found by the Y/row search indexes columns, both in `get_coord` and in
`resample_bbox`; consequently the updated transform origin is
`(x0 + j_min*dx, y0 + i_min*dy)` and the x/longitude bounds govern the row
extent of the cropped array while the y/latitude bounds govern its column
extent. -/
theorem c9_axis_swap :
    (∀ (s : Driver) (i_min i_max j_min j_max : Nat),
      s.resample_indxs = some (i_min, i_max, j_min, j_max) →
      get_coord s = (slice2 i_min i_max j_min j_max (meshX s),
                     slice2 i_min i_max j_min j_max (meshY s))) ∧
    (∀ (s : Driver) (x_min y_min x_max y_max : ℚ) (ar : List (List ℚ))
      (s' : Driver) (a0 : List (List ℚ)),
      s.resample_indxs = none →
      s.ds = some a0 →
      a0.length = s.ny →
      (∀ row ∈ a0, row.length = s.nx) →
      resample_bbox s x_min y_min x_max y_max = .ok (ar, s') →
      ∃ i_min i_max j_min j_max,
        searchWindow s.gt.dx x_min x_max (arange s.gt.x0 s.gt.dx s.nx) =
          .ok (i_min, i_max) ∧
        searchWindow s.gt.dy y_min y_max ((meshY s).map fun r => r.headD 0) =
          .ok (j_min, j_max) ∧
        s'.resample_indxs = some (i_min, i_max, j_min, j_max) ∧
        s'.gt = ⟨s.gt.x0 + (j_min : ℚ) * s.gt.dx, s.gt.dx, 0,
                 s.gt.y0 + (i_min : ℚ) * s.gt.dy, 0, s.gt.dy⟩ ∧
        ar.length = min i_max s.ny - i_min ∧
        (∀ row ∈ ar, row.length = min j_max s.nx - j_min) ∧
        s'.ny = min i_max s.ny - i_min ∧
        s'.nx = min j_max s.nx - j_min) := by
  constructor
  · intro s i_min i_max j_min j_max h
    simp [get_coord, h]
  · intro s x_min y_min x_max y_max ar s' a0 hfresh hds hlen hrows hok
    obtain ⟨il, ih, jl, jh, hsw1, hsw2, hil, hih, hjl, hjh, hs', hdata⟩ :=
      resample_fresh_spec hfresh hok
    have har := hdata a0 hds
    refine ⟨il, ih, jl, jh, hsw1, hsw2, by rw [hs'], by rw [hs'], ?_, ?_,
      by rw [hs'], by rw [hs']⟩
    · rw [har, slice2_length, hlen]
    · intro row hrow
      rw [har] at hrow
      exact slice2_row_len hrows row hrow

/-- Witness for C9 at the concrete crop of `d1` with window (2, 4, 0, 3):
the origin moves to (100, 480) and the cropped shape is 2 rows by 3
columns. -/
theorem c9_witness :
    get_coord c10post = (slice2 2 4 0 3 (meshX c10post),
                         slice2 2 4 0 3 (meshY c10post)) ∧
    (∃ i_min i_max j_min j_max,
      searchWindow d1.gt.dx 115 140 (arange d1.gt.x0 d1.gt.dx d1.nx) =
        .ok (i_min, i_max) ∧
      searchWindow d1.gt.dy 470 500 ((meshY d1).map fun r => r.headD 0) =
        .ok (j_min, j_max) ∧
      c10post.resample_indxs = some (i_min, i_max, j_min, j_max) ∧
      c10post.gt = ⟨d1.gt.x0 + (j_min : ℚ) * d1.gt.dx, d1.gt.dx, 0,
                    d1.gt.y0 + (i_min : ℚ) * d1.gt.dy, 0, d1.gt.dy⟩ ∧
      c10crop.length = min i_max d1.ny - i_min ∧
      (∀ row ∈ c10crop, row.length = min j_max d1.nx - j_min) ∧
      c10post.ny = min i_max d1.ny - i_min ∧
      c10post.nx = min j_max d1.nx - j_min) :=
  ⟨c9_axis_swap.1 c10post 2 4 0 3 rfl,
   c9_axis_swap.2 d1 115 470 140 500 c10crop c10post d1data rfl rfl rfl
     (by with_unfolding_all decide) (by with_unfolding_all rfl)⟩

/-- C10: after a successful crop from a state with no cached window,
`get_coord` rebuilds the mesh from the cropped dimensions and slices it
again with the cached window; whenever `i_min > 0` or `j_min > 0` the grids
it returns are strictly smaller than the cached crop (possibly empty) and
differ from the cropped coordinate grids computed inside `resample_bbox`. -/
theorem c10_get_coord_after_crop (s : Driver) (x_min y_min x_max y_max : ℚ)
    (ar : List (List ℚ)) (s' : Driver)
    (hfresh : s.resample_indxs = none)
    (hok : resample_bbox s x_min y_min x_max y_max = .ok (ar, s')) :
    ∀ i_min i_max j_min j_max,
      s'.resample_indxs = some (i_min, i_max, j_min, j_max) →
      get_coord s' = (slice2 i_min i_max j_min j_max (meshX s'),
                      slice2 i_min i_max j_min j_max (meshY s')) ∧
      ((0 < i_min ∨ 0 < j_min) →
        gridCells (get_coord s').1 <
          gridCells (slice2 i_min i_max j_min j_max (meshX s)) ∧
        (get_coord s').1 ≠ slice2 i_min i_max j_min j_max (meshX s) ∧
        gridCells (get_coord s').2 <
          gridCells (slice2 i_min i_max j_min j_max (meshY s)) ∧
        (get_coord s').2 ≠ slice2 i_min i_max j_min j_max (meshY s)) := by
  obtain ⟨il, ih, jl, jh, hsw1, hsw2, hil, hih, hjl, hjh, hs', hdata⟩ :=
    resample_fresh_spec hfresh hok
  have hny' : s'.ny = min ih s.ny - il := by rw [hs']
  have hnx' : s'.nx = min jh s.nx - jl := by rw [hs']
  have hsome' : s'.resample_indxs = some (il, ih, jl, jh) := by rw [hs']
  intro i_min i_max j_min j_max hsome
  rw [hsome'] at hsome
  simp only [Option.some.injEq, Prod.mk.injEq] at hsome
  obtain ⟨h1, h2, h3, h4⟩ := hsome
  subst h1
  subst h2
  subst h3
  subst h4
  have hgc : get_coord s' = (slice2 il ih jl jh (meshX s'),
                             slice2 il ih jl jh (meshY s')) := by
    simp [get_coord, hsome']
  refine ⟨hgc, ?_⟩
  intro hpos
  rw [hgc]
  have hXshrink := @slice2_shrink (meshX s) (meshX s') il ih jl jh
    (min ih s.ny - il) (min jh s.nx - jl) s.ny s.nx rfl rfl (by omega) (by omega)
    (meshX_length s) (meshX_row_len s) (by rw [meshX_length, hny'])
    (by
      intro row hrow
      rw [meshX_row_len s' row hrow, hnx']) hpos
  have hYshrink := @slice2_shrink (meshY s) (meshY s') il ih jl jh
    (min ih s.ny - il) (min jh s.nx - jl) s.ny s.nx rfl rfl (by omega) (by omega)
    (meshY_length s) (meshY_row_len s) (by rw [meshY_length, hny'])
    (by
      intro row hrow
      rw [meshY_row_len s' row hrow, hnx']) hpos
  exact ⟨hXshrink.1, hXshrink.2, hYshrink.1, hYshrink.2⟩

/-- Witness for C10: the concrete crop of `d1` with window (2, 4, 0, 3) has
shape 2 by 3, and the subsequent `get_coord` re-slices the rebuilt 2-by-3
mesh with the same window, leaving empty grids. -/
theorem c10_witness :
    get_coord c10post = (slice2 2 4 0 3 (meshX c10post),
                         slice2 2 4 0 3 (meshY c10post)) ∧
    ((0 < 2 ∨ 0 < 0) →
      gridCells (get_coord c10post).1 < gridCells (slice2 2 4 0 3 (meshX d1)) ∧
      (get_coord c10post).1 ≠ slice2 2 4 0 3 (meshX d1) ∧
      gridCells (get_coord c10post).2 < gridCells (slice2 2 4 0 3 (meshY d1)) ∧
      (get_coord c10post).2 ≠ slice2 2 4 0 3 (meshY d1)) :=
  c10_get_coord_after_crop d1 115 470 140 500 c10crop c10post rfl
    (by with_unfolding_all rfl) 2 4 0 3 rfl

end Geo
